import Mathlib

/-!
Verification development for the Nexusnext landing page repository.

The repository contains two near-duplicate React front ends
(`src/nexusnext-landing/src/App.js`, the "src variant", and
`src/nexusnext-landing/frontend/src/App.js`, the "frontend variant")
plus an Express backend (`src/nexusnext-landing/backend/index.js`).

This file gives a shallow embedding of the pure logic of that code:

* JavaScript numbers are modelled as exact rationals (`ℚ`); every constant
  used here is a short decimal literal, which `ℚ` represents exactly.
* `Math.sin` values that feed a computation are passed in as explicit
  rational parameters (the properties proved never depend on their value).
* Stateful fragments (the effect lifecycles, the animation loops, the HTTP
  handler) are modelled as explicit step functions on record states.
-/

/-! ### Adaptive Quality Selector
Translated from `usePerformanceMonitor`
(src variant lines 8–37, frontend variant lines 6–35; the two are
textually identical). -/

/-- The discrete quality tier produced by `usePerformanceMonitor`. -/
inductive Quality where
  | low
  | medium
  | high
deriving DecidableEq

/-- Device signals read by `usePerformanceMonitor`.
`hardwareConcurrency` and `effectiveType` are `Option` because
`navigator.hardwareConcurrency` and `navigator.connection?.effectiveType`
may be `undefined`; in JS `undefined < 4` is `false` and
`undefined === '2g'` is `false`, which the translation mirrors. -/
structure DeviceSignals where
  innerWidth : ℚ
  hardwareConcurrency : Option ℕ
  effectiveType : Option String

/-- `const mobile = window.innerWidth < 768;` -/
def isMobileWidth (d : DeviceSignals) : Bool :=
  decide (d.innerWidth < 768)

/-- `const lowEnd = navigator.hardwareConcurrency < 4;`
(`undefined < 4` evaluates to `false` in JS). -/
def lowEndCpu (d : DeviceSignals) : Bool :=
  match d.hardwareConcurrency with
  | some n => decide (n < 4)
  | none => false

/-- `const slowConnection = navigator.connection?.effectiveType === 'slow-2g'
|| navigator.connection?.effectiveType === '2g';` -/
def slowNetwork (d : DeviceSignals) : Bool :=
  d.effectiveType == some "slow-2g" || d.effectiveType == some "2g"

/-- The initializer of the `useState` in `usePerformanceMonitor`
(src variant lines 9–16). -/
def qualityInit (d : DeviceSignals) : Quality :=
  if isMobileWidth d || lowEndCpu d || slowNetwork d then Quality.low
  else if d.innerWidth < 1024 then Quality.medium
  else Quality.high

/-- The debounced resize re-evaluation inside the `setTimeout` callback
(src variant lines 21–28); the three signal reads are re-issued there
verbatim, so this is a second literal translation of the same logic. -/
def qualityOnResize (d : DeviceSignals) : Quality :=
  if decide (d.innerWidth < 768)
      || (match d.hardwareConcurrency with
          | some n => decide (n < 4)
          | none => false)
      || (d.effectiveType == some "slow-2g" || d.effectiveType == some "2g") then
    Quality.low
  else if d.innerWidth < 1024 then Quality.medium
  else Quality.high

/-! ### Scroll Progress Tracker
Translated from `useScrollProgress` (src variant lines 39–59). -/

/-- The value published by the scheduled animation-frame callback:
`Math.min(Math.max(window.scrollY / 800, 0), 1)` (src variant line 45). -/
def scrollProgressOf (scrollY : ℚ) : ℚ :=
  min (max (scrollY / 800) 0) 1

/-! ### Per-frame opacity computations -/

/-- `const sOpacity = Math.max(0.2, 1 - scrollProgress * 0.8);`
(sphere scene animate, src variant line 168 / frontend variant line 225). -/
def sphereOverallOpacity (s : ℚ) : ℚ :=
  max 0.2 (1 - s * 0.8)

/-- `edgesMaterial.opacity = sOpacity * 0.6;` (src variant line 170). -/
def sphereEdgesOpacity (s : ℚ) : ℚ :=
  sphereOverallOpacity s * 0.6

/-- `particlesMaterial.opacity = sOpacity * 0.45;` (src variant line 171). -/
def sphereParticlesOpacity (s : ℚ) : ℚ :=
  sphereOverallOpacity s * 0.45

/-- `mat1.opacity = 0.65 + 0.31 * scrollProgress;`
(DNA scene animate, src variant line 334). -/
def dnaMat1Opacity (s : ℚ) : ℚ :=
  0.65 + 0.31 * s

/-- `mat2.opacity = 0.62 + 0.33 * scrollProgress;`
(DNA scene animate, src variant line 335). -/
def dnaMat2Opacity (s : ℚ) : ℚ :=
  0.62 + 0.33 * s

/-- `mat1.opacity = 0.65 + 0.25 * scrollProgress;`
(DNA scene animate, frontend variant line 530). -/
def feDnaMat1Opacity (s : ℚ) : ℚ :=
  0.65 + 0.25 * s

/-- `mat2.opacity = 0.62 + 0.28 * scrollProgress;`
(frontend variant line 531). -/
def feDnaMat2Opacity (s : ℚ) : ℚ :=
  0.62 + 0.28 * s

/-- `particlesMaterial.opacity = 0.3 + 0.4 * scrollProgress;`
(frontend variant line 532). -/
def feDnaParticlesOpacity (s : ℚ) : ℚ :=
  0.3 + 0.4 * s

/-! ### Animation loops
The sphere scene's `animate` callback (src variant lines 157–175, frontend
variant lines 205–235) receives the rAF timestamp and skips frames whose
delta since the last processed frame is under 16 ms.  The DNA scene's
`animate` callback (src variant lines 325–337, frontend variant lines
499–537) takes no timestamp and processes every invocation. -/

/-- Mutable per-frame state of the sphere scene's animation loop. -/
structure SphereAnim where
  time : ℚ
  lastTime : ℚ
  sphereRotY : ℚ
  sphereRotX : ℚ
  particlesRotY : ℚ
  particlesRotX : ℚ
  materialOpacity : ℚ
  edgesOpacity : ℚ
  particlesOpacity : ℚ
  sphereScale : ℚ
  renders : ℕ
deriving DecidableEq

/-- Initial state at `let time = 0, lastTime = 0;` (src variant line 155):
rotations start at the three.js default 0, the material opacities at their
construction values 0.7 / 0.38 / 0.45 (lines 112, 120, 148), scale at 1,
and no render has been issued yet. -/
def sphereAnimInit : SphereAnim :=
  { time := 0, lastTime := 0, sphereRotY := 0, sphereRotX := 0,
    particlesRotY := 0, particlesRotX := 0,
    materialOpacity := 0.7, edgesOpacity := 0.38, particlesOpacity := 0.45,
    sphereScale := 1, renders := 0 }

/-- One invocation of the sphere scene's `animate(currentTime)` callback
(src variant lines 157–175).  `sinA` stands for the value of
`Math.sin(time * 0.5)` and `sinB` for `Math.sin(time * 2)` at this frame;
the callback reschedules itself and then returns without touching any
state when `currentTime - lastTime < 16`. -/
def sphereAnimate (scroll currentTime sinA sinB : ℚ) (st : SphereAnim) :
    SphereAnim :=
  if currentTime - st.lastTime < 16 then st
  else
    { time := st.time + 0.009
      lastTime := currentTime
      sphereRotY := st.sphereRotY + (0.004 + scroll * 0.01)
      sphereRotX := st.sphereRotX + (0.002 + scroll * 0.003)
      particlesRotY := st.particlesRotY - (0.001 + scroll * 0.003)
      particlesRotX := st.particlesRotX + sinA * 0.0008
      materialOpacity := sphereOverallOpacity scroll
      edgesOpacity := sphereEdgesOpacity scroll
      particlesOpacity := sphereParticlesOpacity scroll
      sphereScale := 1 + sinB * 0.05 * (1 - scroll * 0.5)
      renders := st.renders + 1 }

/-- Mutable per-frame state of the DNA scene's animation loop
(src variant). -/
structure DnaAnim where
  time : ℚ
  helixRotY : ℚ
  helixRotX : ℚ
  helixScale : ℚ
  particlesRotY : ℚ
  mat1Opacity : ℚ
  mat2Opacity : ℚ
  renders : ℕ
deriving DecidableEq

/-- Initial DNA animation state for a construction that saw scroll
progress `s`: `let time = 0;` (src variant line 323), default rotations,
and the construction-time material opacities `0.7 + 0.2 * s` and
`0.65 + 0.2 * s` (src variant lines 268 and 273). -/
def dnaAnimInit (s : ℚ) : DnaAnim :=
  { time := 0, helixRotY := 0, helixRotX := 0, helixScale := 1,
    particlesRotY := 0,
    mat1Opacity := 0.7 + 0.2 * s, mat2Opacity := 0.65 + 0.2 * s,
    renders := 0 }

/-- One invocation of the DNA scene's `animate()` callback (src variant
lines 325–337).  `sinA` stands for `Math.sin(time * 0.32 + 0.15 *
scrollProgress)` and `sinB` for `Math.sin(time * 2.5)` at this frame.  The
callback takes no timestamp and measures no delta: every invocation
advances the state and issues a render call. -/
def dnaAnimate (scroll sinA sinB : ℚ) (st : DnaAnim) : DnaAnim :=
  { time := st.time + 0.011
    helixRotY := (st.time + 0.011) * 0.35 + 0.033 * scroll
    helixRotX := 0.32 * sinA
    helixScale := 1.0 + 0.08 * sinB
    particlesRotY := st.particlesRotY + 0.003
    mat1Opacity := dnaMat1Opacity scroll
    mat2Opacity := dnaMat2Opacity scroll
    renders := st.renders + 1 }

/-- Running the DNA loop over a list of rAF timestamps.  The timestamps
are what the browser hands each callback; the src-variant DNA `animate`
ignores them (it binds no parameter), which the fold makes explicit. -/
def dnaRunFrames (scroll sinA sinB : ℚ) (timestamps : List ℚ) : DnaAnim :=
  timestamps.foldl (fun st _t => dnaAnimate scroll sinA sinB st)
    (dnaAnimInit scroll)

/-! ### Scene lifecycle: resource bookkeeping

`World` counts the graphics resources that exist for one mount point.
One sphere-scene construction (src variant lines 92–154, frontend variant
lines 101–184) creates one scene-graph root, three geometries
(`SphereGeometry`, `EdgesGeometry`, the particles `BufferGeometry`), three
materials (`MeshPhysicalMaterial`, `LineBasicMaterial`, `PointsMaterial`),
one `WebGLRenderer`, and appends the renderer's canvas to the mount
container.  The dispose sequence (src variant lines 191–200, frontend
variant lines 276–291) disposes the three geometries, the three materials
and the renderer, and removes the canvas if still attached. -/

/-- Resource counts for one scene mount point, together with how many
dispose calls each resource kind has received. -/
structure World where
  liveScenes : ℕ
  liveGeometries : ℕ
  liveMaterials : ℕ
  liveRenderers : ℕ
  attachedCanvases : ℕ
  geometryDisposeCalls : ℕ
  materialDisposeCalls : ℕ
  rendererDisposeCalls : ℕ
deriving DecidableEq

/-- The empty mount point before any construction. -/
def World.empty : World :=
  { liveScenes := 0, liveGeometries := 0, liveMaterials := 0,
    liveRenderers := 0, attachedCanvases := 0,
    geometryDisposeCalls := 0, materialDisposeCalls := 0,
    rendererDisposeCalls := 0 }

/-- Resource creation performed by one completed sphere-scene
construction (src variant lines 92–154). -/
def buildSphereResources (w : World) : World :=
  { w with
    liveScenes := w.liveScenes + 1
    liveGeometries := w.liveGeometries + 3
    liveMaterials := w.liveMaterials + 3
    liveRenderers := w.liveRenderers + 1
    attachedCanvases := w.attachedCanvases + 1 }

/-- The dispose sequence of the sphere-scene cleanup closure (src variant
lines 191–200, frontend variant lines 276–291): `geometry.dispose()` ×3,
`material.dispose()` ×3, `renderer.dispose()`, and removal of the canvas
from the mount container (guarded by a `contains` check). -/
def disposeSphereResources (w : World) : World :=
  { w with
    liveScenes := w.liveScenes - 1
    liveGeometries := w.liveGeometries - 3
    liveMaterials := w.liveMaterials - 3
    liveRenderers := w.liveRenderers - 1
    attachedCanvases := w.attachedCanvases - 1
    geometryDisposeCalls := w.geometryDisposeCalls + 3
    materialDisposeCalls := w.materialDisposeCalls + 3
    rendererDisposeCalls := w.rendererDisposeCalls + 1 }

/-- Resumption of the src variant's `loadScene` after
`await import('three')` (src variant lines 86–89): the liveness flag
`mounted` captured by the effect closure and the mount node's presence are
checked before anything is built; if either check fails the function
returns and creates nothing. -/
def srcSphereResolve (mounted : Bool) (mountPresent : Bool) (w : World) :
    World :=
  if !mounted then w
  else if !mountPresent then w
  else buildSphereResources w

/-- Resumption of the frontend variant's `initScene` after
`await import('three')` (frontend variant lines 94–95):
`if (!isMounted || !mountRef.current) return;`. -/
def feSphereResolve (isMounted : Bool) (mountPresent : Bool) (w : World) :
    World :=
  if !isMounted || !mountPresent then w
  else buildSphereResources w

/-- The src variant's effect cleanup (src variant lines 208–210): it only
sets `mounted = false`.  The dispose closure built at lines 187–201 is the
value the async `loadScene` resolves with, but line 207 calls
`loadScene();` and discards that promise, so no dispose call and no canvas
removal ever happens on unmount or reconstruction. -/
def srcSphereUnmount (w : World) : World :=
  w

/-- The frontend variant's effect cleanup (frontend variant lines
304–309): it sets `isMounted = false` and chains onto the promise returned
by `initScene`, invoking the resolved dispose closure when construction
completed (`cleanup.then(cleanupFn => cleanupFn && cleanupFn())`). -/
def feSphereUnmount (built : Bool) (w : World) : World :=
  if built then disposeSphereResources w else w

/-- One full mount → construction-complete → unmount cycle of the src
variant's `SphereGridScene` (the effect also re-runs this cycle on every
change of `quality`, `qualitySettings`, or `scrollProgress`, src variant
line 211). -/
def srcSphereMountCycle (w : World) : World :=
  srcSphereUnmount (srcSphereResolve true true w)

/-- One full mount → construction-complete → unmount cycle of the
frontend variant's `SphereGridScene`. -/
def feSphereMountCycle (w : World) : World :=
  feSphereUnmount true (feSphereResolve true true w)

/-! ### Scene lifecycle: per-instance teardown behaviour (src variant) -/

/-- Per-instance state of one src-variant `SphereGridScene` effect run:
the `mounted` flag, whether construction completed, how many render calls
the instance has issued, and how many dispose calls each of its resources
has received. -/
structure InstanceState where
  mounted : Bool
  built : Bool
  renders : ℕ
  geometryDisposeCalls : ℕ
  materialDisposeCalls : ℕ
  rendererDisposeCalls : ℕ
deriving DecidableEq

/-- State at the start of the effect (src variant line 83:
`let mounted = true;`). -/
def srcInstanceInit : InstanceState :=
  { mounted := true, built := false, renders := 0,
    geometryDisposeCalls := 0, materialDisposeCalls := 0,
    rendererDisposeCalls := 0 }

/-- Completion of the construction while still mounted (src variant lines
86–154). -/
def srcInstanceBuild (st : InstanceState) : InstanceState :=
  if st.mounted then { st with built := true } else st

/-- One processed frame of the instance's animation callback: the guard
`if (!mounted) return;` (src variant line 158) stops both the render and
the rescheduling once the flag is cleared. -/
def srcInstanceAnimateTick (st : InstanceState) : InstanceState :=
  if st.mounted then { st with renders := st.renders + 1 } else st

/-- The src variant's effect cleanup (lines 208–210): `mounted = false;`
and nothing else — the dispose closure of lines 187–201 was never captured
(line 207 discards the promise carrying it), so no dispose-call counter
can change. -/
def srcInstanceTeardown (st : InstanceState) : InstanceState :=
  { st with mounted := false }

/-! ### Scene construction error handling
The whole construction body runs inside `try { ... } catch (error) {
console.error(...); setIsLoaded(true); }` (src variant lines 85–205,
frontend variant lines 93–299). -/

/-- Page-visible state owned by one scene component: whether the scene is
marked loaded (which hides the loading placeholder and leaves the static
gradient background of the mount `div` visible), and how many errors have
been logged via `console.error`. -/
structure PageState where
  loaded : Bool
  errorsLogged : ℕ
deriving DecidableEq

/-- One run of the guarded construction.  `body` is the outcome of the
`try` block up to `setIsLoaded(true)` — `Except.error e` when any step
(including the `await import('three')`) throws `e`.  On success the scene
is marked loaded (src variant line 186); in the `catch` arm the error is
logged and the scene is still marked loaded (src variant lines 202–205,
frontend variant lines 296–299).  The function is total: no thrown error
escapes to the surrounding page. -/
def sceneConstructionRun (body : Except String Unit) (st : PageState) :
    PageState :=
  match body with
  | Except.ok _ => { st with loaded := true }
  | Except.error _ =>
      { loaded := true, errorsLogged := st.errorsLogged + 1 }

/-! ### Backend: `POST /api/waitlist`
Translated from `src/nexusnext-landing/backend/index.js`, lines 22–48. -/

/-- Characters matched by the ECMAScript regex class `\s`: tab, line
feed, vertical tab, form feed, carriage return, space, no-break space,
the byte-order mark, the line and paragraph separators, and every other
Unicode space-separator (category Zs): U+1680, U+2000 through U+200A,
U+202F, U+205F, and U+3000. -/
def jsWhitespace (c : Char) : Bool :=
  c == ' ' || c == '\t' || c == '\n' || c == '\x0B' || c == '\x0C'
    || c == '\r' || c == '\u00A0' || c == '\u1680'
    || (decide ('\u2000' ≤ c) && decide (c ≤ '\u200A'))
    || c == '\u2028' || c == '\u2029' || c == '\u202F'
    || c == '\u205F' || c == '\u3000' || c == '\uFEFF'

/-- Characters matched by the class `[^\s@]` of the server's email
regex. -/
def emailChar (c : Char) : Bool :=
  !jsWhitespace c && !(c == '@')

/-- Split a character list at its first `'@'`, if any: `some (a, b)` with
the input equal to `a ++ '@' :: b` and no `'@'` in `a`. -/
def splitAtSign : List Char → Option (List Char × List Char)
  | [] => none
  | c :: rest =>
      if c = '@' then some ([], rest)
      else
        match splitAtSign rest with
        | some (a, b) => some (c :: a, b)
        | none => none

/-- Whether a character list has a `'.'` at an interior position (neither
first nor last). -/
def hasInteriorDot (cs : List Char) : Bool :=
  ((cs.drop 1).dropLast).contains '.'

/-- Matching against the server's regex `^[^\s@]+@[^\s@]+\.[^\s@]+$`
(backend line 24).  The pattern's classes all exclude `'@'`, so a match
contains exactly one `'@'`; the part before it is a nonempty run of
`[^\s@]` characters, and the part after it is a nonempty run of `[^\s@]`
characters that decomposes as `mid ++ '.' ++ suffix` with `mid` and
`suffix` nonempty — since `'.'` itself lies in `[^\s@]`, that is exactly
the existence of a `'.'` at an interior position of the part after the
`'@'`. -/
def emailRegexTest (s : String) : Bool :=
  match splitAtSign s.data with
  | some (a, b) =>
      !a.isEmpty && a.all emailChar && !b.isEmpty && b.all emailChar
        && hasInteriorDot b
  | none => false

/-- A JavaScript value as found in a parsed JSON request body field
(`req.body.email`); `vundefined` models an absent field. -/
inductive JsVal where
  | vstr (s : String)
  | vnum (n : Int)
  | vbool (b : Bool)
  | vnull
  | vundefined
  | vobj
  | varr
deriving DecidableEq

/-- `const isEmail = (email) => typeof email === 'string' &&
/^[^\s@]+@[^\s@]+\.[^\s@]+$/.test(email);` (backend lines 22–24): the
string-type check comes first, so every non-string value is rejected
without touching the regex. -/
def isEmail : JsVal → Bool
  | JsVal.vstr s => emailRegexTest s
  | _ => false

/-- Outcome of the Supabase `insert` call (backend lines 33–36): either no
error, or an error object carrying a message. -/
inductive InsertOutcome where
  | ok
  | errored (message : String)
deriving DecidableEq

/-- An HTTP response of the route: status code plus the `message` /
`error` fields of the JSON payload. -/
structure ApiResponse where
  status : ℕ
  messageField : Option String
  errorField : Option String
deriving DecidableEq

/-- Result of one handler run: the response sent, and whether a database
insert was attempted. -/
structure HandlerResult where
  response : ApiResponse
  insertAttempted : Bool
deriving DecidableEq

/-- Whether `needle` is a prefix of `hay`. -/
def listHasPrefix : List Char → List Char → Bool
  | [], _ => true
  | _ :: _, [] => false
  | a :: as, b :: bs => a == b && listHasPrefix as bs

/-- Whether `needle` occurs as a contiguous run inside `hay`. -/
def listContainsSub (needle : List Char) : List Char → Bool
  | [] => needle.isEmpty
  | b :: bs => listHasPrefix needle (b :: bs) || listContainsSub needle bs

/-- `error.message.toLowerCase().includes('duplicate')` (backend
line 38): the message is lowercased character by character and searched
for the contiguous run `duplicate`. -/
def messageMentionsDuplicate (m : String) : Bool :=
  listContainsSub "duplicate".data (m.data.map Char.toLower)

/-- The `POST /api/waitlist` handler (backend lines 27–48): reject with
400 when the validator fails (no insert attempted); otherwise insert,
re-throwing any insert error whose message does not mention a duplicate —
the `catch` turns that into a 500 — and reporting success (200) when the
insert succeeded or failed only with a duplicate-key error. -/
def waitlistPost (email : JsVal) (ins : InsertOutcome) : HandlerResult :=
  if !isEmail email then
    { response := { status := 400, messageField := none,
                    errorField := some "Invalid email address" },
      insertAttempted := false }
  else
    match ins with
    | InsertOutcome.ok =>
        { response := { status := 200,
                        messageField := some "Successfully added to waitlist.",
                        errorField := none },
          insertAttempted := true }
    | InsertOutcome.errored m =>
        if messageMentionsDuplicate m then
          { response := { status := 200,
                          messageField := some "Successfully added to waitlist.",
                          errorField := none },
            insertAttempted := true }
        else
          { response := { status := 500, messageField := none,
                          errorField := some "Failed to add to waitlist." },
            insertAttempted := true }

/-! ### Claim theorems (quality selector and scroll progress) -/

/-- C2: the Quality Selector returns `low` exactly when the viewport is
narrower than 768, the logical-processor count is reported and below 4, or
the network effective type is `2g`/`slow-2g`; `medium` exactly when none of
those hold and the width is in `[768, 1024)`; `high` otherwise — and the
debounced resize re-evaluation computes the same classification as the
initializer.  Missing (`undefined`) signals never force `low`. -/
theorem quality_selector_classification (d : DeviceSignals) :
    (qualityInit d = Quality.low ↔
      (d.innerWidth < 768 ∨ (∃ n, d.hardwareConcurrency = some n ∧ n < 4)
        ∨ d.effectiveType = some "2g" ∨ d.effectiveType = some "slow-2g"))
    ∧ (qualityInit d = Quality.medium ↔
      (¬ (d.innerWidth < 768 ∨ (∃ n, d.hardwareConcurrency = some n ∧ n < 4)
          ∨ d.effectiveType = some "2g" ∨ d.effectiveType = some "slow-2g")
        ∧ 768 ≤ d.innerWidth ∧ d.innerWidth < 1024))
    ∧ (qualityInit d = Quality.high ↔
      (¬ (d.innerWidth < 768 ∨ (∃ n, d.hardwareConcurrency = some n ∧ n < 4)
          ∨ d.effectiveType = some "2g" ∨ d.effectiveType = some "slow-2g")
        ∧ 1024 ≤ d.innerWidth))
    ∧ qualityOnResize d = qualityInit d := by
  have hresize : qualityOnResize d = qualityInit d := by
    unfold qualityOnResize qualityInit isMobileWidth lowEndCpu slowNetwork
    rfl
  have hkey : (isMobileWidth d || lowEndCpu d || slowNetwork d) = true ↔
      (d.innerWidth < 768 ∨ (∃ n, d.hardwareConcurrency = some n ∧ n < 4)
        ∨ d.effectiveType = some "2g" ∨ d.effectiveType = some "slow-2g") := by
    unfold isMobileWidth lowEndCpu slowNetwork
    cases h : d.hardwareConcurrency <;>
      simp [h, or_assoc] <;> tauto
  by_cases hL : (d.innerWidth < 768 ∨ (∃ n, d.hardwareConcurrency = some n ∧ n < 4)
      ∨ d.effectiveType = some "2g" ∨ d.effectiveType = some "slow-2g")
  · have e : qualityInit d = Quality.low := by
      unfold qualityInit
      rw [if_pos (hkey.mpr hL)]
    refine ⟨⟨fun _ => hL, fun _ => e⟩, ?_, ?_, hresize⟩
    · rw [e]
      exact iff_of_false (by decide) (fun h => h.1 hL)
    · rw [e]
      exact iff_of_false (by decide) (fun h => h.1 hL)
  · have hcond : ¬ ((isMobileWidth d || lowEndCpu d || slowNetwork d) = true) := by
      intro h
      exact hL (hkey.mp h)
    have hwide : (768 : ℚ) ≤ d.innerWidth := by
      by_contra hw
      exact hL (Or.inl (lt_of_not_le hw))
    by_cases hw : d.innerWidth < 1024
    · have e : qualityInit d = Quality.medium := by
        unfold qualityInit
        rw [if_neg hcond, if_pos hw]
      refine ⟨?_, ⟨fun _ => ⟨hL, hwide, hw⟩, fun _ => e⟩, ?_, hresize⟩
      · rw [e]
        exact iff_of_false (by decide) (fun h => hL h)
      · rw [e]
        exact iff_of_false (by decide) (fun h => absurd hw (not_lt_of_le h.2))
    · have e : qualityInit d = Quality.high := by
        unfold qualityInit
        rw [if_neg hcond, if_neg hw]
      refine ⟨?_, ?_, ⟨fun _ => ⟨hL, le_of_not_lt hw⟩, fun _ => e⟩, hresize⟩
      · rw [e]
        exact iff_of_false (by decide) (fun h => hL h)
      · rw [e]
        exact iff_of_false (by decide) (fun h => hw h.2.2)

/-- C3: for every scroll offset `scrollY ≥ 0`, the published
scroll-progress value equals `min (max (scrollY / 800) 0) 1` and lies in
the closed interval `[0, 1]`. -/
theorem scroll_progress_clamped (y : ℚ) (_h : 0 ≤ y) :
    scrollProgressOf y = min (max (y / 800) 0) 1
    ∧ 0 ≤ scrollProgressOf y ∧ scrollProgressOf y ≤ 1 := by
  refine ⟨rfl, ?_, ?_⟩
  · exact le_min (le_max_right _ _) zero_le_one
  · exact min_le_right _ _

/-- C3 witness: the theorem instantiated at `scrollY = 400`. -/
theorem scroll_progress_clamped_witness :
    scrollProgressOf 400 = min (max ((400 : ℚ) / 800) 0) 1
    ∧ 0 ≤ scrollProgressOf 400 ∧ scrollProgressOf 400 ≤ 1 :=
  scroll_progress_clamped 400 (by decide)

/-- C4 counterexample: the claim asserts every material's opacity is
non-increasing in scroll progress, but the DNA scene's first strand
material has opacity `0.65 + 0.31 * s` (src variant line 334): at the
concrete inputs `s1 = 0 ≤ s2 = 1` the opacity computed at `s2` is `0.96`,
strictly greater than the `0.65` computed at `s1`. -/
theorem dna_opacity_not_decreasing :
    (0 : ℚ) ≤ 1 ∧ ¬ (dnaMat1Opacity 1 ≤ dnaMat1Opacity 0) := by
  constructor
  · decide
  · unfold dnaMat1Opacity
    norm_num

/-- C4 (amended): in the sphere scene every material opacity is a
monotonically non-increasing function of scroll progress, with the edge
and particle opacities equal to the overall opacity scaled by the fixed
multipliers 0.6 and 0.45; in the DNA scene (both variants) the strand and
particle opacities are monotonically non-decreasing affine functions of
scroll progress. -/
theorem scene_opacity_scroll_monotonicity (s1 s2 : ℚ) (h : s1 ≤ s2) :
    (sphereOverallOpacity s2 ≤ sphereOverallOpacity s1
      ∧ sphereEdgesOpacity s2 ≤ sphereEdgesOpacity s1
      ∧ sphereParticlesOpacity s2 ≤ sphereParticlesOpacity s1)
    ∧ (∀ s, sphereEdgesOpacity s = sphereOverallOpacity s * 0.6
      ∧ sphereParticlesOpacity s = sphereOverallOpacity s * 0.45)
    ∧ (dnaMat1Opacity s1 ≤ dnaMat1Opacity s2
      ∧ dnaMat2Opacity s1 ≤ dnaMat2Opacity s2
      ∧ feDnaMat1Opacity s1 ≤ feDnaMat1Opacity s2
      ∧ feDnaMat2Opacity s1 ≤ feDnaMat2Opacity s2
      ∧ feDnaParticlesOpacity s1 ≤ feDnaParticlesOpacity s2) := by
  have hover : sphereOverallOpacity s2 ≤ sphereOverallOpacity s1 := by
    unfold sphereOverallOpacity
    exact max_le_max (le_refl _) (by linarith)
  refine ⟨⟨hover, ?_, ?_⟩, fun s => ⟨rfl, rfl⟩, ?_, ?_, ?_, ?_, ?_⟩
  · unfold sphereEdgesOpacity
    have : (0 : ℚ) ≤ 0.6 := by norm_num
    exact mul_le_mul_of_nonneg_right hover this
  · unfold sphereParticlesOpacity
    have : (0 : ℚ) ≤ 0.45 := by norm_num
    exact mul_le_mul_of_nonneg_right hover this
  · unfold dnaMat1Opacity
    linarith
  · unfold dnaMat2Opacity
    linarith
  · unfold feDnaMat1Opacity
    linarith
  · unfold feDnaMat2Opacity
    linarith
  · unfold feDnaParticlesOpacity
    linarith

/-- C4 witness: the amended monotonicity theorem instantiated at the
concrete scroll-progress pair `s1 = 0 ≤ s2 = 1`. -/
theorem scene_opacity_scroll_monotonicity_witness :
    (sphereOverallOpacity 1 ≤ sphereOverallOpacity 0
      ∧ sphereEdgesOpacity 1 ≤ sphereEdgesOpacity 0
      ∧ sphereParticlesOpacity 1 ≤ sphereParticlesOpacity 0)
    ∧ (∀ s, sphereEdgesOpacity s = sphereOverallOpacity s * 0.6
      ∧ sphereParticlesOpacity s = sphereOverallOpacity s * 0.45)
    ∧ (dnaMat1Opacity 0 ≤ dnaMat1Opacity 1
      ∧ dnaMat2Opacity 0 ≤ dnaMat2Opacity 1
      ∧ feDnaMat1Opacity 0 ≤ feDnaMat1Opacity 1
      ∧ feDnaMat2Opacity 0 ≤ feDnaMat2Opacity 1
      ∧ feDnaParticlesOpacity 0 ≤ feDnaParticlesOpacity 1) :=
  scene_opacity_scroll_monotonicity 0 1 (by decide)

/-- C8 counterexample: the claim asserts every scene's animation loop
skips frames whose delta since the last processed frame is below 16 ms,
but the DNA scene's loop measures no delta at all.  Concretely, for two
consecutive rAF callbacks at timestamps 0 and 5 ms (a 5 ms delta, below
16), the second callback still advances the accumulator and issues a
render: after the two callbacks the loop has rendered twice and the time
accumulator differs from its value after the first callback alone. -/
theorem dna_frames_not_throttled :
    ((5 : ℚ) - 0 < 16)
    ∧ (dnaRunFrames 0 0 0 [0, 5]).renders = 2
    ∧ (dnaRunFrames 0 0 0 [0, 5]).time ≠ (dnaRunFrames 0 0 0 [0]).time := by
  refine ⟨by norm_num, rfl, ?_⟩
  unfold dnaRunFrames dnaAnimate dnaAnimInit
  norm_num

/-- C8 (amended): the sphere scene's animation loop skips every frame
whose measured delta since the last processed frame is below 16 ms — the
state is left entirely unchanged and no render call is issued — while the
DNA scene's animation loop has no throttle: every invocation advances the
state and issues exactly one render call. -/
theorem animation_frame_throttling (scroll currentTime sinA sinB : ℚ)
    (st : SphereAnim) (h : currentTime - st.lastTime < 16) :
    sphereAnimate scroll currentTime sinA sinB st = st
    ∧ ∀ (scroll2 sinC sinD : ℚ) (d : DnaAnim),
        (dnaAnimate scroll2 sinC sinD d).renders = d.renders + 1 := by
  constructor
  · unfold sphereAnimate
    rw [if_pos h]
  · intro scroll2 sinC sinD d
    rfl

/-- C8 witness: the throttling theorem instantiated at a concrete skipped
sphere frame (timestamp 0 against `lastTime = 0`, delta `0 < 16`) and a
concrete DNA frame. -/
theorem animation_frame_throttling_witness :
    sphereAnimate 0 0 0 0 sphereAnimInit = sphereAnimInit
    ∧ (dnaAnimate 0 0 0 (dnaAnimInit 0)).renders = (dnaAnimInit 0).renders + 1 := by
  have h := animation_frame_throttling 0 0 0 0 sphereAnimInit
    (by simp [sphereAnimInit])
  exact ⟨h.1, h.2 0 0 0 (dnaAnimInit 0)⟩

/-- C1: evaluation of the src variant at the failing scenario.  Two
consecutive mount → construction-complete → unmount cycles of the src
variant's `SphereGridScene` leave two live renderers, two canvases
attached to the mount container, six geometries and six materials live,
and zero dispose calls — the previously created bundle is never released,
so bundles accumulate, contradicting the at-most-one-live-bundle
invariant.  The frontend variant's cycle, whose effect cleanup does invoke
the resolved dispose closure, releases everything. -/
theorem src_remount_accumulates_bundles :
    (srcSphereMountCycle (srcSphereMountCycle World.empty)).liveRenderers = 2
    ∧ (srcSphereMountCycle (srcSphereMountCycle World.empty)).attachedCanvases = 2
    ∧ (srcSphereMountCycle (srcSphereMountCycle World.empty)).liveGeometries = 6
    ∧ (srcSphereMountCycle (srcSphereMountCycle World.empty)).liveMaterials = 6
    ∧ (srcSphereMountCycle (srcSphereMountCycle World.empty)).rendererDisposeCalls = 0
    ∧ (feSphereMountCycle World.empty).liveRenderers = 0
    ∧ (feSphereMountCycle World.empty).attachedCanvases = 0 := by
  decide

/-- C5: evaluation of the src variant at the failing scenario.  After a
src-variant instance builds, renders once, and is torn down: the teardown
stops all further render calls and is idempotent (a second invocation, or
an invocation on an instance whose construction never completed, changes
nothing and cannot throw — the model is a total function), but every
dispose-call counter is still zero, not one: the resources created by the
instance are released zero times, because the dispose closure (src variant
lines 187–201) is discarded at line 207. -/
theorem src_teardown_releases_nothing :
    (srcInstanceAnimateTick
        (srcInstanceTeardown
          (srcInstanceAnimateTick (srcInstanceBuild srcInstanceInit)))).renders
      = (srcInstanceTeardown
          (srcInstanceAnimateTick (srcInstanceBuild srcInstanceInit))).renders
    ∧ (srcInstanceTeardown
        (srcInstanceAnimateTick (srcInstanceBuild srcInstanceInit))).geometryDisposeCalls = 0
    ∧ (srcInstanceTeardown
        (srcInstanceAnimateTick (srcInstanceBuild srcInstanceInit))).materialDisposeCalls = 0
    ∧ (srcInstanceTeardown
        (srcInstanceAnimateTick (srcInstanceBuild srcInstanceInit))).rendererDisposeCalls = 0
    ∧ srcInstanceTeardown
        (srcInstanceTeardown
          (srcInstanceAnimateTick (srcInstanceBuild srcInstanceInit)))
      = srcInstanceTeardown
          (srcInstanceAnimateTick (srcInstanceBuild srcInstanceInit))
    ∧ srcInstanceTeardown (srcInstanceTeardown srcInstanceInit)
      = srcInstanceTeardown srcInstanceInit := by
  decide

/-- C6: if the component unmounts (or the mount node disappears) while
the asynchronous `import('three')` is still pending, the construction
step, upon resuming, detects the cleared liveness flag and creates
nothing: the resource world is left exactly as it was — no scene-graph
root, no geometry, no material, no renderer, and no DOM canvas is created
by the aborted construction, in either variant. -/
theorem aborted_construction_creates_nothing (w : World) (mountPresent : Bool) :
    srcSphereResolve false mountPresent w = w
    ∧ feSphereResolve false mountPresent w = w := by
  constructor
  · rfl
  · rfl

/-- C7: every error thrown during scene construction (including a failed
graphics-library import) is caught by the surrounding `try`/`catch`: it is
logged, the scene is still marked loaded — hiding the loading placeholder
and leaving the static gradient fallback background — and, the guarded
construction being a total function into `PageState`, nothing propagates
to the surrounding page; on every outcome, error or not, the scene ends up
marked loaded. -/
theorem construction_error_contained (e : String) (st : PageState) :
    sceneConstructionRun (Except.error e) st =
      { loaded := true, errorsLogged := st.errorsLogged + 1 }
    ∧ ∀ (body : Except String Unit) (s : PageState),
        (sceneConstructionRun body s).loaded = true := by
  constructor
  · rfl
  · intro body s
    cases body <;> rfl

/-- C9: for every `POST /api/waitlist` request — if the body's email is
not a string matching the server's pattern, the response is 400 with
error `Invalid email address` and no insert is attempted; if it validates
and the insert succeeds, or fails only with an error whose message
mentions a duplicate key, the response is 200 with the success message;
for any other insert error the response is 500 with error
`Failed to add to waitlist.`. -/
theorem waitlist_route_responses (email : JsVal) (ins : InsertOutcome) :
    (isEmail email = false →
      waitlistPost email ins =
        { response := { status := 400, messageField := none,
                        errorField := some "Invalid email address" },
          insertAttempted := false })
    ∧ (isEmail email = true → ins = InsertOutcome.ok →
      waitlistPost email ins =
        { response := { status := 200,
                        messageField := some "Successfully added to waitlist.",
                        errorField := none },
          insertAttempted := true })
    ∧ (∀ m, isEmail email = true → ins = InsertOutcome.errored m →
        messageMentionsDuplicate m = true →
      waitlistPost email ins =
        { response := { status := 200,
                        messageField := some "Successfully added to waitlist.",
                        errorField := none },
          insertAttempted := true })
    ∧ (∀ m, isEmail email = true → ins = InsertOutcome.errored m →
        messageMentionsDuplicate m = false →
      waitlistPost email ins =
        { response := { status := 500, messageField := none,
                        errorField := some "Failed to add to waitlist." },
          insertAttempted := true }) := by
  refine ⟨?_, ?_, ?_, ?_⟩
  · intro hF
    simp [waitlistPost, hF]
  · intro hT hok
    subst hok
    simp [waitlistPost, hT]
  · intro m hT hin hdup
    subst hin
    simp [waitlistPost, hT, hdup]
  · intro m hT hin hdup
    subst hin
    simp [waitlistPost, hT, hdup]

/-- C9 witness: the route theorem instantiated at the concrete valid
request `{"email": "a@b.co"}` with a successful insert. -/
theorem waitlist_route_responses_witness :
    waitlistPost (JsVal.vstr "a@b.co") InsertOutcome.ok =
      { response := { status := 200,
                      messageField := some "Successfully added to waitlist.",
                      errorField := none },
        insertAttempted := true } :=
  (waitlist_route_responses (JsVal.vstr "a@b.co") InsertOutcome.ok).2.1
    (by decide) rfl

/-- C10: for every request body whose email field is absent or not a
string (a number, null, a boolean, an object, or an array), the validator
rejects it before the regex runs, so the handler returns the 400
`Invalid email address` response with no insert attempted — the endpoint
is a total function over arbitrary JSON bodies and cannot throw. -/
theorem nonstring_email_rejected (email : JsVal) (ins : InsertOutcome)
    (h : ∀ s, email ≠ JsVal.vstr s) :
    isEmail email = false
    ∧ waitlistPost email ins =
        { response := { status := 400, messageField := none,
                        errorField := some "Invalid email address" },
          insertAttempted := false } := by
  have hF : isEmail email = false := by
    cases email
    case vstr s => exact absurd rfl (h s)
    all_goals rfl
  exact ⟨hF, by simp [waitlistPost, hF]⟩

/-- C10 witness: the rejection theorem instantiated at the concrete
non-string body field `{"email": 42}` with a would-be successful
insert. -/
theorem nonstring_email_rejected_witness :
    isEmail (JsVal.vnum 42) = false
    ∧ waitlistPost (JsVal.vnum 42) InsertOutcome.ok =
        { response := { status := 400, messageField := none,
                        errorField := some "Invalid email address" },
          insertAttempted := false } :=
  nonstring_email_rejected (JsVal.vnum 42) InsertOutcome.ok
    (fun _s h => nomatch h)
